import Mathlib

/-!
Shallow embedding of the Hostel Feedback System (src/main.py), a
Streamlit application over an SQLite database.

Modelling decisions, all traceable to the source:

* Tables become lists of rows; `INTEGER PRIMARY KEY` auto-assignment
  (`cursor.lastrowid`) becomes an explicit per-table counter in the state.
* Timestamps (`datetime.now().isoformat()` strings, `DATE` values and the
  `CURRENT_TIMESTAMP` defaults) become naturals, ordered as the ISO strings
  are ordered in time; each operation that reads the clock takes the
  current instant `now` as a parameter.
* `hashlib.sha256(...).hexdigest()` is an external library call; it is
  embedded as a parameter `digest : String → String` threaded through the
  operations, exactly where `hash_password` is called in the source.
* `get_db_connection` opens connections with plain `sqlite3.connect` and
  never executes `PRAGMA foreign_keys = ON`.  SQLite keeps foreign-key
  enforcement OFF by default on every new connection, so the
  `FOREIGN KEY ... ON DELETE CASCADE` clauses of the schema are declared
  but never acted on, while `CHECK`, `NOT NULL` and `UNIQUE` constraints
  are enforced.  The embedding mirrors this: deletes do not cascade,
  inserts do not verify referenced rows, and `submit_feedback` enforces
  the rating / mess-type `CHECK` constraints (a violation raises
  `sqlite3.IntegrityError`, which the `except sqlite3.Error` handler turns
  into a `False` return with no row inserted).
* The `except sqlite3.Error` connection-failure paths are not modelled:
  every operation is given a working store, as in the spec's store model.
-/

namespace HostelFeedback

/-- Row of the `users` table (src/main.py lines 62-72). -/
structure UserRow where
  id : Nat
  username : String
  password : String
  name : String
  email : String
  reg_no : String
  room_no : String
  last_login : Option Nat
  created_at : Nat
  deriving DecidableEq

/-- Row of the `hostel` table (lines 75-79). -/
structure HostelRow where
  hostel_id : Nat
  name : String
  location : String
  deriving DecidableEq

/-- Row of the `room` table (lines 82-88). -/
structure RoomRow where
  room_id : Nat
  room_number : String
  type : String
  hostel_id : Option Nat
  deriving DecidableEq

/-- Row of the `guest` table (lines 91-97). -/
structure GuestRow where
  guest_id : Nat
  name : String
  email : String
  user_id : Option Nat
  deriving DecidableEq

/-- Row of the `stays_in_room` table (lines 100-108); `check_out_date` is
the one nullable column. -/
structure StayRow where
  stay_id : Nat
  guest_id : Nat
  room_id : Nat
  check_in_date : Nat
  check_out_date : Option Nat
  deriving DecidableEq

/-- Row of the `feedback` table (lines 111-125). -/
structure FeedbackRow where
  id : Nat
  username : String
  timestamp : Nat
  hostel_feedback : String
  hostel_rating : String
  mess_feedback : String
  mess_type : String
  mess_rating : String
  bathroom_feedback : String
  bathroom_rating : String
  other_comments : String
  created_at : Nat
  deriving DecidableEq

/-- Row of the `admin_logs` table (lines 128-134). -/
structure AdminLogRow where
  id : Nat
  timestamp : Nat
  action : String
  details : String
  created_at : Nat
  deriving DecidableEq

/-- The whole SQLite database: one list per table plus the next
auto-assigned `INTEGER PRIMARY KEY` for each table. -/
structure DB where
  users : List UserRow
  hostel : List HostelRow
  room : List RoomRow
  guest : List GuestRow
  stays_in_room : List StayRow
  feedback : List FeedbackRow
  admin_logs : List AdminLogRow
  next_user_id : Nat
  next_hostel_id : Nat
  next_room_id : Nat
  next_guest_id : Nat
  next_stay_id : Nat
  next_feedback_id : Nat
  next_log_id : Nat
  deriving DecidableEq

/-- A database with empty tables, as `initialize_database` leaves the
user/guest/stay/feedback/log tables on a fresh file. -/
def emptyDB : DB :=
  { users := [], hostel := [], room := [], guest := [], stays_in_room := []
    feedback := [], admin_logs := []
    next_user_id := 1, next_hostel_id := 1, next_room_id := 1
    next_guest_id := 1, next_stay_id := 1, next_feedback_id := 1
    next_log_id := 1 }

/-- `hash_password` (line 167-169): defers to the SHA-256 digest, embedded
as the parameter `digest`. -/
def hash_password (digest : String → String) (password : String) : String :=
  digest password

/-- The values allowed by the `CHECK (x_rating IN ('A','B','C','D','E'))`
constraints of the `feedback` table (lines 116, 119, 121). -/
def rating_values : List String := ["A", "B", "C", "D", "E"]

/-- The values allowed by the `CHECK (mess_type IN (...))` constraint
(line 118). -/
def mess_type_values : List String := ["Veg", "Non-Veg", "Special", "Food-Park"]

def valid_rating (r : String) : Bool := rating_values.contains r

def valid_mess_type (t : String) : Bool := mess_type_values.contains t

/-- `log_admin_action` (lines 190-203): inserts an `admin_logs` row with
the current timestamp. -/
def log_admin_action (db : DB) (action details : String) (now : Nat) : DB :=
  { db with
      admin_logs := db.admin_logs ++
        [{ id := db.next_log_id, timestamp := now, action := action
           details := details, created_at := now }]
      next_log_id := db.next_log_id + 1 }

/-- `authenticate_admin` (lines 506-509): compares against the fixed
in-process credential pair `ADMIN_USERNAME` / `ADMIN_PASSWORD_HASH`,
where `ADMIN_PASSWORD_HASH = sha256("Soumya@1234")` (lines 37-38). -/
def authenticate_admin (digest : String → String) (username password : String) : Bool :=
  username == "hostel_admin" && hash_password digest password == digest "Soumya@1234"

/-- `authenticate_user` (lines 511-533): `SELECT username FROM users WHERE
username = ? AND password = ?` with the hashed password; if a row comes
back, `UPDATE users SET last_login = ? WHERE username = ?` and return
`True`, otherwise return `False`. -/
def authenticate_user (digest : String → String) (db : DB)
    (username password : String) (now : Nat) : Bool × DB :=
  if db.users.any (fun r => r.username == username &&
      r.password == hash_password digest password) then
    (true,
      { db with users := db.users.map (fun r =>
          if r.username = username then { r with last_login := some now } else r) })
  else
    (false, db)

/-- Profile fields handed to `register_user` as the `user_data` dict
(lines 915-920). -/
structure UserData where
  name : String
  email : String
  reg_no : String
  room_no : String
  deriving DecidableEq

/-- `register_user` (lines 535-577): uniqueness check by `SELECT`, then
`INSERT` of the users row (id = `cursor.lastrowid`), then `INSERT` of the
linked guest row, one commit.  `created_at` takes the
`CURRENT_TIMESTAMP` default. -/
def register_user (digest : String → String) (db : DB)
    (username password : String) (user_data : UserData) (now : Nat) :
    (Bool × String) × DB :=
  if db.users.any (fun r => r.username == username) then
    ((false, "Username already exists"), db)
  else
    let user_id := db.next_user_id
    ((true, "Registration successful"),
      { db with
          users := db.users ++
            [{ id := user_id, username := username
               password := hash_password digest password
               name := user_data.name, email := user_data.email
               reg_no := user_data.reg_no, room_no := user_data.room_no
               last_login := none, created_at := now }]
          guest := db.guest ++
            [{ guest_id := db.next_guest_id, name := user_data.name
               email := user_data.email, user_id := some user_id }]
          next_user_id := user_id + 1
          next_guest_id := db.next_guest_id + 1 })

/-- `delete_user` (lines 579-590): `DELETE FROM users WHERE username = ?`,
commit, `return True`.  No rowcount check, and — the connection never
enabling `PRAGMA foreign_keys` — the `ON DELETE CASCADE` clauses of
`feedback` and `guest` are not executed: only the `users` table changes. -/
def delete_user (db : DB) (username : String) : Bool × DB :=
  (true, { db with users := db.users.filter (fun r => !(r.username == username)) })

/-- `add_hostel` (lines 595-606). -/
def add_hostel (db : DB) (name location : String) : Bool × DB :=
  (true,
    { db with
        hostel := db.hostel ++
          [{ hostel_id := db.next_hostel_id, name := name, location := location }]
        next_hostel_id := db.next_hostel_id + 1 })

/-- `add_room` (lines 608-620); the `hostel_id` foreign key is not
verified (foreign-key enforcement off). -/
def add_room (db : DB) (room_number room_type : String) (hostel_id : Nat) :
    Bool × DB :=
  (true,
    { db with
        room := db.room ++
          [{ room_id := db.next_room_id, room_number := room_number
             type := room_type, hostel_id := some hostel_id }]
        next_room_id := db.next_room_id + 1 })

/-- `assign_room_to_guest` (lines 622-636): plain `INSERT` of a stay with
NULL `check_out_date`; guest/room foreign keys are not verified. -/
def assign_room_to_guest (db : DB) (guest_id room_id check_in_date : Nat) :
    Bool × DB :=
  (true,
    { db with
        stays_in_room := db.stays_in_room ++
          [{ stay_id := db.next_stay_id, guest_id := guest_id, room_id := room_id
             check_in_date := check_in_date, check_out_date := none }]
        next_stay_id := db.next_stay_id + 1 })

/-- `checkout_guest` (lines 638-653): `UPDATE stays_in_room SET
check_out_date = ? WHERE guest_id = ? AND room_id = ? AND check_out_date
IS NULL`, commit, `return True` with no rowcount check. -/
def checkout_guest (db : DB) (guest_id room_id check_out_date : Nat) :
    Bool × DB :=
  (true,
    { db with stays_in_room := db.stays_in_room.map (fun s =>
        if s.guest_id = guest_id ∧ s.room_id = room_id ∧ s.check_out_date = none
        then { s with check_out_date := some check_out_date } else s) })

/-- The `feedback_data` dict built by `feedback_page` (lines 956-965). -/
structure FeedbackData where
  hostel_feedback : String
  hostel_rating : String
  mess_feedback : String
  mess_type : String
  mess_rating : String
  bathroom_feedback : String
  bathroom_rating : String
  other_comments : String
  deriving DecidableEq

/-- `submit_feedback` (lines 658-686): one `INSERT` into `feedback`.
SQLite enforces the three rating `CHECK`s and the mess-type `CHECK`
(they do not depend on the foreign-key pragma); a violation raises
`sqlite3.IntegrityError`, caught by the handler, so the function returns
`False` and no row is stored.  The `username` foreign key is NOT checked
(foreign-key enforcement off), so any username value is accepted. -/
def submit_feedback (db : DB) (username : String) (d : FeedbackData)
    (now : Nat) : Bool × DB :=
  if valid_rating d.hostel_rating && valid_mess_type d.mess_type &&
      valid_rating d.mess_rating && valid_rating d.bathroom_rating then
    (true,
      { db with
          feedback := db.feedback ++
            [{ id := db.next_feedback_id, username := username, timestamp := now
               hostel_feedback := d.hostel_feedback
               hostel_rating := d.hostel_rating
               mess_feedback := d.mess_feedback
               mess_type := d.mess_type
               mess_rating := d.mess_rating
               bathroom_feedback := d.bathroom_feedback
               bathroom_rating := d.bathroom_rating
               other_comments := d.other_comments, created_at := now }]
          next_feedback_id := db.next_feedback_id + 1 })
  else
    (false, db)

/-- `clear_admin_logs` (lines 688-699): `DELETE FROM admin_logs`. -/
def clear_admin_logs (db : DB) : Bool × DB :=
  (true, { db with admin_logs := [] })

/-- The Streamlit session flags relevant to authorization
(`init_session_state`, lines 179-188). -/
structure Session where
  logged_in : Bool
  current_user : Option String
  is_admin : Bool
  deriving DecidableEq

/-- What a page invocation renders: either the guard's "Unauthorized
access" warning or the page content. -/
inductive PageView where
  | unauthorized
  | rendered
  deriving DecidableEq

/-- `user_manager` page (lines 1589-1647): guard on
`st.session_state.get('is_admin')`, view logging, and the delete-user
button (`delete_req` is the selected username when the button is
pressed). -/
def user_manager (sess : Session) (db : DB) (delete_req : Option String)
    (now : Nat) : PageView × DB :=
  if sess.is_admin then
    let db1 := log_admin_action db "VIEWED_USER_MANAGEMENT" "" now
    match delete_req with
    | none => (PageView.rendered, db1)
    | some u =>
        let res := delete_user db1 u
        if res.1 then
          (PageView.rendered,
            log_admin_action res.2 "USER_DELETION" (String.append "Deleted user: " u) now)
        else
          (PageView.rendered, res.2)
  else
    (PageView.unauthorized, db)

/-- `system_logs` page (lines 1649-1713): guard on `is_admin`; the
clear-logs button (`clear_req`) truncates `admin_logs` and logs
`LOGS_CLEARED`. -/
def system_logs (sess : Session) (db : DB) (clear_req : Bool) (now : Nat) :
    PageView × DB :=
  if sess.is_admin then
    if clear_req then
      let res := clear_admin_logs db
      if res.1 then
        (PageView.rendered,
          log_admin_action res.2 "LOGS_CLEARED" "All system logs cleared" now)
      else
        (PageView.rendered, res.2)
    else
      (PageView.rendered, db)
  else
    (PageView.unauthorized, db)

/-- `feedback_viewer` page (lines 1455-1587): guard on `is_admin`, then a
read-only report over `feedback` preceded by `log_admin_action
("VIEWED_ALL_FEEDBACK")`. -/
def feedback_viewer (sess : Session) (db : DB) (now : Nat) : PageView × DB :=
  if sess.is_admin then
    (PageView.rendered, log_admin_action db "VIEWED_ALL_FEEDBACK" "" now)
  else
    (PageView.unauthorized, db)

/-- The student tab of `render_login_page` (lines 745-758): on
`authenticate_user` success the session is marked logged-in for that user
and "Login successful!" is shown; otherwise the uniform message
"Invalid credentials" is shown with the session untouched. -/
def render_login_student (digest : String → String) (sess : Session)
    (db : DB) (username password : String) (now : Nat) :
    String × Session × DB :=
  let res := authenticate_user digest db username password now
  if res.1 then
    ("Login successful!",
      { sess with logged_in := true, current_user := some username }, res.2)
  else
    ("Invalid credentials", sess, res.2)

/-- Every store-mutating operation the program defines, for temporal
statements ranging over all of them. -/
inductive Op where
  | register (username password : String) (d : UserData) (now : Nat)
  | login (username password : String) (now : Nat)
  | deleteUser (username : String)
  | submitFeedback (username : String) (d : FeedbackData) (now : Nat)
  | addHostel (name location : String)
  | addRoom (room_number room_type : String) (hostel_id : Nat)
  | assignRoom (guest_id room_id check_in_date : Nat)
  | checkout (guest_id room_id check_out_date : Nat)
  | clearLogs
  | logAction (action details : String) (now : Nat)

/-- Effect of one defined operation on the store. -/
def applyOp (digest : String → String) : Op → DB → DB
  | Op.register u p d now, db => (register_user digest db u p d now).2
  | Op.login u p now, db => (authenticate_user digest db u p now).2
  | Op.deleteUser u, db => (delete_user db u).2
  | Op.submitFeedback u d now, db => (submit_feedback db u d now).2
  | Op.addHostel n l, db => (add_hostel db n l).2
  | Op.addRoom rn rt h, db => (add_room db rn rt h).2
  | Op.assignRoom g r c, db => (assign_room_to_guest db g r c).2
  | Op.checkout g r c, db => (checkout_guest db g r c).2
  | Op.clearLogs, db => (clear_admin_logs db).2
  | Op.logAction a d now, db => log_admin_action db a d now

/-- A feedback row satisfying the closed-set constraints of the schema. -/
def feedback_row_ok (f : FeedbackRow) : Prop :=
  f.hostel_rating ∈ rating_values ∧ f.mess_type ∈ mess_type_values ∧
    f.mess_rating ∈ rating_values ∧ f.bathroom_rating ∈ rating_values

instance (f : FeedbackRow) : Decidable (feedback_row_ok f) := by
  unfold feedback_row_ok; infer_instance

/-- Identity digest, used only to instantiate the digest parameter on
concrete inputs. -/
def idDigest : String → String := fun s => s

/-- Concrete registered user used by concrete instances. -/
def aliceRow : UserRow :=
  { id := 1, username := "alice", password := "pw", name := "Alice A"
    email := "a@x.com", reg_no := "R1", room_no := "101"
    last_login := none, created_at := 0 }

/-- Store holding exactly the user `alice`. -/
def dbAlice : DB := { emptyDB with users := [aliceRow], next_user_id := 2 }

/-- A feedback row of `alice` with legal rating values. -/
def aliceFeedbackRow : FeedbackRow :=
  { id := 1, username := "alice", timestamp := 5, hostel_feedback := "good"
    hostel_rating := "B", mess_feedback := "ok", mess_type := "Veg"
    mess_rating := "A", bathroom_feedback := "fine", bathroom_rating := "C"
    other_comments := "", created_at := 5 }

/-- Store holding `alice`, her linked guest row, an open stay of that
guest and one feedback row of hers — the configuration the cascade claim
is about. -/
def dbCascade : DB :=
  { emptyDB with
      users := [aliceRow]
      guest := [{ guest_id := 1, name := "Alice A", email := "a@x.com", user_id := some 1 }]
      stays_in_room := [{ stay_id := 1, guest_id := 1, room_id := 1
                          check_in_date := 10, check_out_date := none }]
      feedback := [aliceFeedbackRow]
      next_user_id := 2, next_guest_id := 2, next_stay_id := 2
      next_feedback_id := 2 }

/-- Feedback form data with all values inside the closed sets. -/
def okFeedbackData : FeedbackData :=
  { hostel_feedback := "good", hostel_rating := "B", mess_feedback := "ok"
    mess_type := "Veg", mess_rating := "A", bathroom_feedback := "fine"
    bathroom_rating := "C", other_comments := "" }

/-- Feedback form data whose hostel rating is outside {A,B,C,D,E}. -/
def badFeedbackData : FeedbackData :=
  { okFeedbackData with hostel_rating := "Z" }

/-- Registration profile used by concrete instances. -/
def exUserData : UserData :=
  { name := "Alice A", email := "a@x.com", reg_no := "R1", room_no := "101" }

/-- A stay whose check-out date is already set. -/
def closedStayRow : StayRow :=
  { stay_id := 1, guest_id := 1, room_id := 1, check_in_date := 10
    check_out_date := some 15 }

/-- Store holding one already-checked-out stay. -/
def dbClosedStay : DB :=
  { emptyDB with stays_in_room := [closedStayRow], next_stay_id := 2 }

/-- The form data values that satisfy the `CHECK` constraints of the
`feedback` table. -/
def feedback_data_ok (d : FeedbackData) : Prop :=
  d.hostel_rating ∈ rating_values ∧ d.mess_type ∈ mess_type_values ∧
    d.mess_rating ∈ rating_values ∧ d.bathroom_rating ∈ rating_values

instance (d : FeedbackData) : Decidable (feedback_data_ok d) := by
  unfold feedback_data_ok; infer_instance

end HostelFeedback

namespace HostelFeedback

/-- Mapping a function that fixes every element of a list leaves the list
unchanged. -/
theorem map_id_on {α : Type} (f : α → α) (l : List α)
    (h : ∀ a ∈ l, f a = a) : l.map f = l := by
  induction l with
  | nil => rfl
  | cons a t ih =>
      simp only [List.map_cons, List.cons.injEq]
      exact ⟨h a (by simp), ih (fun b hb => h b (by simp [hb]))⟩

/-- Filtering with a predicate that holds on every element of a list
leaves the list unchanged. -/
theorem filter_id_on {α : Type} (p : α → Bool) (l : List α)
    (h : ∀ a ∈ l, p a = true) : l.filter p = l := by
  induction l with
  | nil => rfl
  | cons a t ih =>
      rw [List.filter_cons, if_pos (h a (by simp))]
      exact congrArg _ (ih (fun b hb => h b (by simp [hb])))

/-- `valid_rating` is the boolean membership test for `rating_values`. -/
theorem valid_rating_iff (r : String) :
    valid_rating r = true ↔ r ∈ rating_values := by
  unfold valid_rating
  exact List.elem_iff

/-- `valid_mess_type` is the boolean membership test for
`mess_type_values`. -/
theorem valid_mess_type_iff (t : String) :
    valid_mess_type t = true ↔ t ∈ mess_type_values := by
  unfold valid_mess_type
  exact List.elem_iff

/-- C1: `authenticate_user` succeeds iff a `users` row exists whose
username equals the given username and whose stored password digest
equals `hash_password` of the given password; any other input (unknown
username or mismatched password) yields failure. -/
theorem authenticate_user_iff_matching_row (digest : String → String)
    (db : DB) (username password : String) (now : Nat) :
    (authenticate_user digest db username password now).1 = true ↔
      ∃ r ∈ db.users, r.username = username ∧
        r.password = hash_password digest password := by
  unfold authenticate_user
  split
  next hc =>
    simp only [List.any_eq_true, Bool.and_eq_true, beq_iff_eq] at hc
    simpa using hc
  next hc =>
    simp only [List.any_eq_true, Bool.and_eq_true, beq_iff_eq] at hc
    simpa using hc

/-- C2: a `submit_feedback` call succeeds exactly when the ratings lie in
{A,B,C,D,E} and the mess type in {Veg, Non-Veg, Special, Food-Park}; a
call with a value outside these closed sets is rejected with the store
unchanged (no row added), and every stored feedback row keeps satisfying
the closed-set constraints. -/
theorem submit_feedback_check_constraints (db : DB) (username : String)
    (d : FeedbackData) (now : Nat) :
    ((submit_feedback db username d now).1 = true ↔ feedback_data_ok d)
    ∧ (¬ feedback_data_ok d → submit_feedback db username d now = (false, db))
    ∧ ((∀ f ∈ db.feedback, feedback_row_ok f) →
        ∀ f ∈ (submit_feedback db username d now).2.feedback, feedback_row_ok f) := by
  have hcond : (valid_rating d.hostel_rating && valid_mess_type d.mess_type &&
      valid_rating d.mess_rating && valid_rating d.bathroom_rating) = true ↔
      feedback_data_ok d := by
    simp only [Bool.and_eq_true, valid_rating_iff, valid_mess_type_iff,
      feedback_data_ok]
    tauto
  refine ⟨?_, ?_, ?_⟩
  · unfold submit_feedback
    split
    next hc => simpa using hcond.mp hc
    next hc => simpa using fun h => hc (hcond.mpr h)
  · intro hbad
    unfold submit_feedback
    split
    next hc => exact absurd (hcond.mp hc) hbad
    next hc => rfl
  · intro hall
    unfold submit_feedback
    split
    next hc =>
      intro f hf
      simp only [List.mem_append, List.mem_singleton] at hf
      rcases hf with hf | hf
      · exact hall f hf
      · subst hf
        have h := hcond.mp hc
        exact ⟨h.1, h.2.1, h.2.2.1, h.2.2.2⟩
    next hc => exact hall

/-- C2 witness: a concrete rejected submission leaves the store unchanged,
and the rows stored after a concrete legal submission all satisfy the
constraints. -/
theorem submit_feedback_check_constraints_witness :
    submit_feedback dbAlice "alice" badFeedbackData 7 = (false, dbAlice) ∧
    ∀ f ∈ (submit_feedback dbAlice "alice" okFeedbackData 7).2.feedback,
      feedback_row_ok f :=
  ⟨(submit_feedback_check_constraints dbAlice "alice" badFeedbackData 7).2.1
      (by decide),
   (submit_feedback_check_constraints dbAlice "alice" okFeedbackData 7).2.2
      (by decide)⟩

/-- C3: evaluation at the failing input.  Starting from a store holding
the user `alice`, her linked guest, that guest's stay, and one of her
feedback rows, `delete_user "alice"` reports success and removes the
`users` row, but the feedback, guest and stay rows all remain: the
connection never enables `PRAGMA foreign_keys`, so the declared `ON
DELETE CASCADE` clauses are not executed. -/
theorem delete_user_no_cascade_eval :
    (delete_user dbCascade "alice").1 = true ∧
    (delete_user dbCascade "alice").2.users = [] ∧
    (delete_user dbCascade "alice").2.feedback = [aliceFeedbackRow] ∧
    (delete_user dbCascade "alice").2.guest = dbCascade.guest ∧
    (delete_user dbCascade "alice").2.stays_in_room = dbCascade.stays_in_room := by
  decide

/-- C4 counterexample: registering `alice` again over a store already
holding `alice` does fail and leave the store unchanged, but the message
is "Username already exists", not the claimed "username already
exists". -/
theorem register_duplicate_message_counterexample :
    (register_user idDigest dbAlice "alice" "pw2" exUserData 5).1.1 = false ∧
    (register_user idDigest dbAlice "alice" "pw2" exUserData 5).1.2 ≠
      "username already exists" ∧
    (register_user idDigest dbAlice "alice" "pw2" exUserData 5).1.2 =
      "Username already exists" ∧
    (register_user idDigest dbAlice "alice" "pw2" exUserData 5).2 = dbAlice := by
  decide

/-- C4 (amended): if the store already contains a user with the given
username, `register_user` fails with the message "Username already
exists" and leaves the store unchanged (no users row and no guest row is
inserted). -/
theorem register_duplicate_rejected (digest : String → String) (db : DB)
    (username password : String) (ud : UserData) (now : Nat)
    (h : ∃ r ∈ db.users, r.username = username) :
    register_user digest db username password ud now =
      ((false, "Username already exists"), db) := by
  unfold register_user
  obtain ⟨r, hr, hru⟩ := h
  have hc : db.users.any (fun r => r.username == username) = true := by
    simp only [List.any_eq_true, beq_iff_eq]
    exact ⟨r, hr, hru⟩
  rw [if_pos hc]

/-- C4 witness. -/
theorem register_duplicate_rejected_witness :
    register_user idDigest dbAlice "alice" "pw2" exUserData 5 =
      ((false, "Username already exists"), dbAlice) :=
  register_duplicate_rejected idDigest dbAlice "alice" "pw2" exUserData 5
    (by decide)

/-- C5: the admin-only pages — the all-feedback report, user management
(including its delete action) and system logs (including its clear-logs
action) — invoked from a session that is not admin-authenticated all
render the unauthorized warning and leave the store unchanged. -/
theorem admin_pages_fail_closed (sess : Session) (db : DB)
    (delete_req : Option String) (clear_req : Bool) (now : Nat)
    (h : sess.is_admin = false) :
    user_manager sess db delete_req now = (PageView.unauthorized, db) ∧
    system_logs sess db clear_req now = (PageView.unauthorized, db) ∧
    feedback_viewer sess db now = (PageView.unauthorized, db) := by
  unfold user_manager system_logs feedback_viewer
  simp [h]

/-- C5 witness: a logged-in student session. -/
theorem admin_pages_fail_closed_witness :
    user_manager ⟨true, some "alice", false⟩ dbAlice (some "alice") 9 =
      (PageView.unauthorized, dbAlice) ∧
    system_logs ⟨true, some "alice", false⟩ dbAlice true 9 =
      (PageView.unauthorized, dbAlice) ∧
    feedback_viewer ⟨true, some "alice", false⟩ dbAlice 9 =
      (PageView.unauthorized, dbAlice) :=
  admin_pages_fail_closed ⟨true, some "alice", false⟩ dbAlice (some "alice")
    true 9 rfl

end HostelFeedback

namespace HostelFeedback

/-- C6: two failing student logins — one with a username no `users` row
carries, one with an existing username but a wrong password — produce the
very same observable result: the same failure return and the same uniform
"Invalid credentials" message, with the session and the store left
unchanged, so the two causes cannot be distinguished. -/
theorem login_failure_indistinguishable (digest : String → String)
    (sess : Session) (db : DB) (u1 p1 u2 p2 : String) (now : Nat)
    (h1 : ∀ r ∈ db.users, r.username ≠ u1)
    (h2 : ∃ r ∈ db.users, r.username = u2)
    (h3 : ∀ r ∈ db.users, r.username = u2 →
      r.password ≠ hash_password digest p2) :
    render_login_student digest sess db u1 p1 now =
      render_login_student digest sess db u2 p2 now ∧
    render_login_student digest sess db u2 p2 now =
      ("Invalid credentials", sess, db) := by
  have ha1 : ¬ (db.users.any (fun r => r.username == u1 &&
      r.password == hash_password digest p1) = true) := by
    intro hc
    obtain ⟨r, hr, hp⟩ := List.any_eq_true.mp hc
    simp only [Bool.and_eq_true, beq_iff_eq] at hp
    exact h1 r hr hp.1
  have ha2 : ¬ (db.users.any (fun r => r.username == u2 &&
      r.password == hash_password digest p2) = true) := by
    intro hc
    obtain ⟨r, hr, hp⟩ := List.any_eq_true.mp hc
    simp only [Bool.and_eq_true, beq_iff_eq] at hp
    exact h3 r hr hp.1 hp.2
  unfold render_login_student authenticate_user
  simp [ha1, ha2]

/-- C6 witness: over the store holding only `alice` (stored digest of
"pw" under the identity digest), the unknown username "nobody" and the
known username "alice" with a wrong password are indistinguishable. -/
theorem login_failure_indistinguishable_witness :
    render_login_student idDigest ⟨false, none, false⟩ dbAlice "nobody" "x" 9 =
      render_login_student idDigest ⟨false, none, false⟩ dbAlice "alice" "wrong" 9 ∧
    render_login_student idDigest ⟨false, none, false⟩ dbAlice "alice" "wrong" 9 =
      ("Invalid credentials", ⟨false, none, false⟩, dbAlice) :=
  login_failure_indistinguishable idDigest ⟨false, none, false⟩ dbAlice
    "nobody" "x" "alice" "wrong" 9 (by decide) (by decide) (by decide)

/-- C7: after a successful `authenticate_user` call made at an instant
`now` no earlier than the instant `t0` preceding the call, every row
holding the given username has `last_login = now ≥ t0`; every row is kept
with all fields other than `last_login` unchanged, and rows with other
usernames (and all other tables) are untouched. -/
theorem login_updates_only_last_login (digest : String → String) (db : DB)
    (username password : String) (now t0 : Nat)
    (hsucc : (authenticate_user digest db username password now).1 = true)
    (ht : t0 ≤ now) :
    (∀ r ∈ (authenticate_user digest db username password now).2.users,
        r.username = username → r.last_login = some now ∧ t0 ≤ now)
    ∧ (∀ r ∈ db.users, r.username ≠ username →
        r ∈ (authenticate_user digest db username password now).2.users)
    ∧ (∀ r ∈ db.users, r.username = username →
        { r with last_login := some now } ∈
          (authenticate_user digest db username password now).2.users)
    ∧ (authenticate_user digest db username password now).2.feedback = db.feedback
    ∧ (authenticate_user digest db username password now).2.guest = db.guest
    ∧ (authenticate_user digest db username password now).2.stays_in_room =
        db.stays_in_room := by
  unfold authenticate_user at hsucc ⊢
  by_cases hc : db.users.any (fun r => r.username == username &&
      r.password == hash_password digest password) = true
  · simp only [hc, if_true]
    refine ⟨?_, ?_, ?_, by trivial, by trivial, by trivial⟩
    · intro r hr hru
      obtain ⟨r0, hr0, heq⟩ := List.mem_map.mp hr
      by_cases h0 : r0.username = username
      · rw [if_pos h0] at heq
        subst heq
        exact ⟨rfl, ht⟩
      · rw [if_neg h0] at heq
        subst heq
        exact absurd hru h0
    · intro r hr hne
      have hfix : (if r.username = username
          then { r with last_login := some now } else r) = r := if_neg hne
      exact hfix ▸ List.mem_map_of_mem _ hr
    · intro r hr hru
      have hfix : (if r.username = username
          then { r with last_login := some now } else r) =
          { r with last_login := some now } := if_pos hru
      exact hfix ▸ List.mem_map_of_mem _ hr
  · simp [hc] at hsucc

/-- C7 witness: `alice` logging in at instant 5, the instant before the
call being 3. -/
theorem login_updates_only_last_login_witness :
    (∀ r ∈ (authenticate_user idDigest dbAlice "alice" "pw" 5).2.users,
        r.username = "alice" → r.last_login = some 5 ∧ 3 ≤ 5)
    ∧ (∀ r ∈ dbAlice.users, r.username ≠ "alice" →
        r ∈ (authenticate_user idDigest dbAlice "alice" "pw" 5).2.users)
    ∧ (∀ r ∈ dbAlice.users, r.username = "alice" →
        { r with last_login := some 5 } ∈
          (authenticate_user idDigest dbAlice "alice" "pw" 5).2.users)
    ∧ (authenticate_user idDigest dbAlice "alice" "pw" 5).2.feedback = dbAlice.feedback
    ∧ (authenticate_user idDigest dbAlice "alice" "pw" 5).2.guest = dbAlice.guest
    ∧ (authenticate_user idDigest dbAlice "alice" "pw" 5).2.stays_in_room =
        dbAlice.stays_in_room :=
  login_updates_only_last_login idDigest dbAlice "alice" "pw" 5 3
    (by decide) (by decide)

/-- C8: evaluation at the failing input.  Over a store whose `users`
table is empty, `submit_feedback` for the username "ghost" succeeds and
stores a feedback row referencing a username for which no users row
exists: the `username` foreign key of the `feedback` table is declared
but never enforced, because the connection never enables
`PRAGMA foreign_keys`. -/
theorem submit_feedback_orphan_username_eval :
    (submit_feedback emptyDB "ghost" okFeedbackData 7).1 = true ∧
    (submit_feedback emptyDB "ghost" okFeedbackData 7).2.users = [] ∧
    ∃ f ∈ (submit_feedback emptyDB "ghost" okFeedbackData 7).2.feedback,
      f.username = "ghost" := by
  decide

/-- C9: a stay row whose check-out date is set survives every defined
store operation verbatim: no operation sets the date back to NULL or
changes it (`checkout_guest` only touches rows with `check_out_date IS
NULL`, and — foreign keys being unenforced — not even `delete_user`
removes stay rows). -/
theorem checkout_date_final (digest : String → String) (op : Op) (db : DB)
    (s : StayRow) (d : Nat) (hs : s ∈ db.stays_in_room)
    (hd : s.check_out_date = some d) :
    s ∈ (applyOp digest op db).stays_in_room := by
  cases op with
  | register u p ud now =>
      show s ∈ (register_user digest db u p ud now).2.stays_in_room
      unfold register_user
      split <;> exact hs
  | login u p now =>
      show s ∈ (authenticate_user digest db u p now).2.stays_in_room
      unfold authenticate_user
      split <;> exact hs
  | deleteUser u => exact hs
  | submitFeedback u fd now =>
      show s ∈ (submit_feedback db u fd now).2.stays_in_room
      unfold submit_feedback
      split <;> exact hs
  | addHostel n l => exact hs
  | addRoom rn rt hid => exact hs
  | assignRoom g rid c => exact List.mem_append_left _ hs
  | checkout g rid c =>
      have hmm : (if s.guest_id = g ∧ s.room_id = rid ∧ s.check_out_date = none
          then { s with check_out_date := some c } else s) ∈
          db.stays_in_room.map (fun t : StayRow =>
            if t.guest_id = g ∧ t.room_id = rid ∧ t.check_out_date = none
            then { t with check_out_date := some c } else t) :=
        List.mem_map_of_mem _ hs
      rw [if_neg] at hmm
      · exact hmm
      · rintro ⟨-, -, hnone⟩
        rw [hd] at hnone
        cases hnone
  | clearLogs => exact hs
  | logAction a dd now => exact hs

/-- C9 witness: a checked-out stay survives a further `checkout_guest`
call aimed at the same guest and room. -/
theorem checkout_date_final_witness :
    closedStayRow ∈ (applyOp idDigest (Op.checkout 1 1 99) dbClosedStay).stays_in_room :=
  checkout_date_final idDigest (Op.checkout 1 1 99) dbClosedStay
    closedStayRow 15 (by decide) (by decide)

/-- C10: `delete_user` reports success even when no users row carries the
given username, and `checkout_guest` reports success even when the guest
has no open stay in the room; in both cases the zero-row-affected
statement leaves the store unchanged. -/
theorem zero_row_operations_report_success (db : DB) (username : String)
    (guest_id room_id check_out_date : Nat)
    (h1 : ∀ r ∈ db.users, r.username ≠ username)
    (h2 : ∀ s ∈ db.stays_in_room,
        ¬(s.guest_id = guest_id ∧ s.room_id = room_id ∧
          s.check_out_date = none)) :
    delete_user db username = (true, db) ∧
    checkout_guest db guest_id room_id check_out_date = (true, db) := by
  constructor
  · unfold delete_user
    have hf : db.users.filter (fun r => !(r.username == username)) = db.users := by
      apply filter_id_on
      intro r hr
      simp [h1 r hr]
    rw [hf]
  · unfold checkout_guest
    have hm : db.stays_in_room.map (fun s =>
        if s.guest_id = guest_id ∧ s.room_id = room_id ∧ s.check_out_date = none
        then { s with check_out_date := some check_out_date } else s) =
        db.stays_in_room := by
      apply map_id_on
      intro s hsm
      exact if_neg (h2 s hsm)
    rw [hm]

/-- C10 witness: deleting the unknown user "bob" and checking out guest 2
(who has no open stay in room 1) over the cascade store both report
success with the store unchanged. -/
theorem zero_row_operations_report_success_witness :
    delete_user dbCascade "bob" = (true, dbCascade) ∧
    checkout_guest dbCascade 2 1 20 = (true, dbCascade) :=
  zero_row_operations_report_success dbCascade "bob" 2 1 20
    (by decide) (by decide)

end HostelFeedback
